import Mathlib

/-!
A verification development for the RustgEloquent ORM core: a shallow
embedding of the query-builder (src/orm/query.rs), the model statics
(src/orm/model.rs) and the six relation objects (src/orm/relations/),
together with theorems settling the specified properties of clause
accumulation, SQL rendering, pagination arithmetic and relation
constraint derivation.

Machine integers: every integer in the embedded code is an i64 used far
from overflow (pages, counts, ids); they are modelled as `Int`.
`serde_json::Value` numbers are modelled as `Int` because the repository
only ever constructs them from i64 (`Number::from(i64)` and integer
literals); `as_i64` therefore always succeeds on the `num` variant.
Fallible operations (`Result<_, sqlx::Error>`) are modelled as `Except`.
-/

namespace RustEloquent

/-- The single-quote character as a string; the SQL value renderer wraps
string literals in these (query.rs lines 317 and 324). -/
def squote : String := String.singleton (Char.ofNat 39)

/-- `serde_json::Value` restricted to the variants the repository
constructs (there is no `Object` use on any rendering path; the
catch-all arms of query.rs lines 326/330 are kept as the fallback for
every non-listed variant). Numbers are i64-valued, see the file header. -/
inductive Value where
  | null : Value
  | bool (b : Bool) : Value
  | num (n : Int) : Value
  | str (s : String) : Value
  | arr (elems : List Value) : Value

/-- `val.as_i64().map(|n| n.to_string()).or_else(|| val.as_str().map(...))`
from has_one.rs line 79 (and the identical lines in has_morph_one.rs and
belongs_to_many.rs): a number renders to its decimal string, a string is
taken as-is, and every other variant yields `none`. -/
def Value.key_string : Value → Option String
  | .num n => some (toString n)
  | .str s => some s
  | _ => none

/-- `WhereCondition` from query.rs lines 20-26. -/
structure WhereCondition where
  column : String
  operator : String
  value : Value
  boolean : String

/-- `Join` from query.rs lines 28-35. -/
structure Join where
  table : String
  first : String
  operator : String
  second : String
  join_type : String

/-- `OrderBy` from query.rs lines 37-41. -/
structure OrderBy where
  column : String
  direction : String

/-- `Query<T>` from query.rs lines 5-18.  The `PhantomData<T>` marker is
dropped; the static data of `T` (table name, primary key) is passed to
the operations that consult it.  The source fields `order_by` and
`group_by` are renamed `order_by_list` / `group_by_list` so that the
builder methods can keep their source names. -/
structure Query where
  table : Option String
  select_columns : List String
  where_conditions : List WhereCondition
  joins : List Join
  order_by_list : List OrderBy
  limit_value : Option Int
  offset_value : Option Int
  group_by_list : List String
  having_conditions : List WhereCondition
  with_relations : List String

/-- The static, per-type part of the `Model` trait (model.rs lines 7-17):
`table_name()` and `primary_key()` (default `"id"`). -/
structure ModelStatic where
  table_name : String
  primary_key : String := "id"

/-- `Query::new` (query.rs lines 47-61). -/
def Query.new : Query where
  table := none
  select_columns := ["*"]
  where_conditions := []
  joins := []
  order_by_list := []
  limit_value := none
  offset_value := none
  group_by_list := []
  having_conditions := []
  with_relations := []

/-- `Query::select` (query.rs lines 64-67): replaces the projection. -/
def Query.select (q : Query) (columns : List String) : Query :=
  { q with select_columns := columns }

/-- `Query::select_raw` (query.rs lines 69-72). -/
def Query.select_raw (q : Query) (sql : String) : Query :=
  { q with select_columns := [sql] }

/-- `Query::where_clause` (query.rs lines 75-83): equality on a string
value with connective AND. -/
def Query.where_clause (q : Query) (column value : String) : Query :=
  { q with where_conditions := q.where_conditions ++
      [{ column := column, operator := "=", value := Value.str value, boolean := "AND" }] }

/-- `Query::where_op` (query.rs lines 85-93). -/
def Query.where_op (q : Query) (column operator : String) (value : Value) : Query :=
  { q with where_conditions := q.where_conditions ++
      [{ column := column, operator := operator, value := value, boolean := "AND" }] }

/-- `Query::where_in` (query.rs lines 95-103). -/
def Query.where_in (q : Query) (column : String) (values : List Value) : Query :=
  { q with where_conditions := q.where_conditions ++
      [{ column := column, operator := "IN", value := Value.arr values, boolean := "AND" }] }

/-- `Query::where_not_in` (query.rs lines 105-113). -/
def Query.where_not_in (q : Query) (column : String) (values : List Value) : Query :=
  { q with where_conditions := q.where_conditions ++
      [{ column := column, operator := "NOT IN", value := Value.arr values, boolean := "AND" }] }

/-- `Query::where_null` (query.rs lines 115-123). -/
def Query.where_null (q : Query) (column : String) : Query :=
  { q with where_conditions := q.where_conditions ++
      [{ column := column, operator := "IS NULL", value := Value.null, boolean := "AND" }] }

/-- `Query::where_not_null` (query.rs lines 125-133). -/
def Query.where_not_null (q : Query) (column : String) : Query :=
  { q with where_conditions := q.where_conditions ++
      [{ column := column, operator := "IS NOT NULL", value := Value.null, boolean := "AND" }] }

/-- `Query::or_where` (query.rs lines 135-143): connective OR. -/
def Query.or_where (q : Query) (column operator : String) (value : Value) : Query :=
  { q with where_conditions := q.where_conditions ++
      [{ column := column, operator := operator, value := value, boolean := "OR" }] }

/-- `Query::join` (query.rs lines 146-155). -/
def Query.join (q : Query) (table first operator second : String) : Query :=
  { q with joins := q.joins ++
      [{ table := table, first := first, operator := operator, second := second, join_type := "INNER" }] }

/-- `Query::left_join` (query.rs lines 157-166). -/
def Query.left_join (q : Query) (table first operator second : String) : Query :=
  { q with joins := q.joins ++
      [{ table := table, first := first, operator := operator, second := second, join_type := "LEFT" }] }

/-- `Query::right_join` (query.rs lines 168-177). -/
def Query.right_join (q : Query) (table first operator second : String) : Query :=
  { q with joins := q.joins ++
      [{ table := table, first := first, operator := operator, second := second, join_type := "RIGHT" }] }

/-- `Query::order_by` (query.rs lines 180-186); `direction.to_uppercase()`
is ASCII uppercase on every direction string the repository passes. -/
def Query.order_by (q : Query) (column direction : String) : Query :=
  { q with order_by_list := q.order_by_list ++
      [{ column := column, direction := direction.toUpper }] }

/-- `Query::order_by_asc` (query.rs lines 188-190). -/
def Query.order_by_asc (q : Query) (column : String) : Query :=
  q.order_by column "ASC"

/-- `Query::order_by_desc` (query.rs lines 192-194). -/
def Query.order_by_desc (q : Query) (column : String) : Query :=
  q.order_by column "DESC"

/-- `Query::latest` (query.rs lines 196-199): defaults to `created_at`,
descending. -/
def Query.latest (q : Query) (column : Option String) : Query :=
  q.order_by_desc (column.getD "created_at")

/-- `Query::oldest` (query.rs lines 201-204). -/
def Query.oldest (q : Query) (column : Option String) : Query :=
  q.order_by_asc (column.getD "created_at")

/-- `Query::limit` (query.rs lines 207-210): overwrites. -/
def Query.limit (q : Query) (limit : Int) : Query :=
  { q with limit_value := some limit }

/-- `Query::offset` (query.rs lines 212-215): overwrites. -/
def Query.offset (q : Query) (offset : Int) : Query :=
  { q with offset_value := some offset }

/-- `Query::skip` (query.rs lines 217-219). -/
def Query.skip (q : Query) (skip : Int) : Query := q.offset skip

/-- `Query::take` (query.rs lines 221-223). -/
def Query.take (q : Query) (take : Int) : Query := q.limit take

/-- `Query::group_by` (query.rs lines 226-229): replaces. -/
def Query.group_by (q : Query) (columns : List String) : Query :=
  { q with group_by_list := columns }

/-- `Query::having` (query.rs lines 231-239): connective AND. -/
def Query.having (q : Query) (column operator : String) (value : Value) : Query :=
  { q with having_conditions := q.having_conditions ++
      [{ column := column, operator := operator, value := value, boolean := "AND" }] }

/-- `Query::with` (query.rs lines 242-245), renamed because `with` is a
Lean keyword: records eager-load hints; never consulted by `to_sql`. -/
def Query.with_rel (q : Query) (relations : List String) : Query :=
  { q with with_relations := relations }

/-- The inner match of query.rs lines 323-327, rendering one element of
an array value: strings are single-quoted, numbers are bare decimal
literals, and every other variant falls to the `_ => "NULL"` arm. -/
def render_array_elem : Value → String
  | .str s => squote ++ s ++ squote
  | .num n => toString n
  | _ => "NULL"

/-- The outer match of query.rs lines 316-331, rendering a WHERE
condition value: single-quoted strings (no escaping), bare numbers and
booleans, `NULL` for null, and a parenthesized comma-joined list for
arrays; the final catch-all also renders `NULL`. -/
def render_value : Value → String
  | .str s => squote ++ s ++ squote
  | .num n => toString n
  | .bool b => toString b
  | .null => "NULL"
  | .arr elems => "(" ++ String.intercalate ", " (elems.map render_array_elem) ++ ")"

/-- `format!("{} {} {}", condition.column, condition.operator, <value>)`
from query.rs line 315. -/
def render_condition (c : WhereCondition) : String :=
  c.column ++ " " ++ c.operator ++ " " ++ render_value c.value

/-- The WHERE loop of query.rs lines 311-332: the first condition is
rendered bare (its own connective is never read), every later condition
is preceded by a space, its own connective and a space. -/
def render_conditions : List WhereCondition → String
  | [] => ""
  | c :: rest =>
      render_condition c ++
        String.join (rest.map (fun d => " " ++ d.boolean ++ " " ++ render_condition d))

/-- One hexadecimal digit, lowercase, as `serde_json` writes in `\u`
escapes. -/
def hex_digit (n : Nat) : Char :=
  if n < 10 then Char.ofNat (48 + n) else Char.ofNat (87 + (n - 10))

/-- JSON string escaping as performed by `serde_json`'s `Display`:
quote and backslash are escaped, the named control characters get their
short escapes, the remaining control characters get `\u00xx`. -/
def json_escape_char (c : Char) : String :=
  if c = '"' then "\\\""
  else if c = '\\' then "\\\\"
  else if c = Char.ofNat 8 then "\\b"
  else if c = Char.ofNat 9 then "\\t"
  else if c = Char.ofNat 10 then "\\n"
  else if c = Char.ofNat 12 then "\\f"
  else if c = Char.ofNat 13 then "\\r"
  else if c.toNat < 32 then
    "\\u00" ++ String.singleton (hex_digit (c.toNat / 16)) ++
      String.singleton (hex_digit (c.toNat % 16))
  else String.singleton c

/-- Escape a whole string the way `serde_json`'s `Display` does. -/
def json_escape (s : String) : String :=
  String.join (s.data.map json_escape_char)

mutual

/-- `serde_json::Value`'s `Display` (compact JSON), used verbatim by the
HAVING renderer at query.rs line 347 (`format!("... {}", condition.value)`):
lowercase `null`, bare booleans and numbers, double-quoted escaped
strings, and square-bracketed comma-joined arrays. -/
def Value.json_display : Value → String
  | .null => "null"
  | .bool b => toString b
  | .num n => toString n
  | .str s => "\"" ++ json_escape s ++ "\""
  | .arr elems => "[" ++ json_display_list elems ++ "]"

/-- Comma-joined compact rendering of a JSON array's elements. -/
def json_display_list : List Value → String
  | [] => ""
  | [v] => Value.json_display v
  | v :: rest => Value.json_display v ++ "," ++ json_display_list rest

end

/-- `format!("{} {} {}", condition.column, condition.operator, condition.value)`
from query.rs line 347: unlike the WHERE renderer, the value is written
through `serde_json`'s `Display`. -/
def render_having_condition (c : WhereCondition) : String :=
  c.column ++ " " ++ c.operator ++ " " ++ c.value.json_display

/-- The HAVING loop of query.rs lines 343-348, shaped exactly like the
WHERE loop. -/
def render_having_conditions : List WhereCondition → String
  | [] => ""
  | c :: rest =>
      render_having_condition c ++
        String.join (rest.map (fun d => " " ++ d.boolean ++ " " ++ render_having_condition d))

/-- One join clause of query.rs lines 303-306:
`" {} JOIN {} ON {} {} {}"`. -/
def render_join (j : Join) : String :=
  " " ++ j.join_type ++ " JOIN " ++ j.table ++ " ON " ++ j.first ++ " " ++
    j.operator ++ " " ++ j.second

/-- One ORDER BY clause, `format!("{} {}", o.column, o.direction)` from
query.rs line 355. -/
def render_order (o : OrderBy) : String :=
  o.column ++ " " ++ o.direction

/-- `Query::to_sql` (query.rs lines 296-370), following the source's
sequence of `push_str` calls: SELECT/FROM, joins, WHERE (only when the
condition list is non-empty), GROUP BY, HAVING (only when non-empty),
ORDER BY, LIMIT, OFFSET. -/
def Query.to_sql (q : Query) (T : ModelStatic) : String :=
  let sql := "SELECT " ++ String.intercalate ", " q.select_columns ++ " FROM " ++ T.table_name
  let sql := sql ++ String.join (q.joins.map render_join)
  let sql := if q.where_conditions.isEmpty then sql
    else sql ++ " WHERE " ++ render_conditions q.where_conditions
  let sql := if q.group_by_list.isEmpty then sql
    else sql ++ " GROUP BY " ++ String.intercalate ", " q.group_by_list
  let sql := if q.having_conditions.isEmpty then sql
    else sql ++ " HAVING " ++ render_having_conditions q.having_conditions
  let sql := if q.order_by_list.isEmpty then sql
    else sql ++ " ORDER BY " ++ String.intercalate ", " (q.order_by_list.map render_order)
  let sql := match q.limit_value with
    | some l => sql ++ " LIMIT " ++ toString l
    | none => sql
  match q.offset_value with
  | some o => sql ++ " OFFSET " ++ toString o
  | none => sql

/-- The single opaque database-error kind (`sqlx::Error` at the core's
boundary); the core never constructs one. -/
inductive SqlxError where
  | database (message : String)

/-- `Query::get` (query.rs lines 248-252): the execution stub returns
`Ok(Vec::new())` without consulting any connection. -/
def Query.get (q : Query) (α : Type) : Except SqlxError (List α) :=
  Except.ok []

/-- `Query::first` (query.rs lines 254-258): forces `limit(1)`, runs
`get`, then takes the head of the result list. -/
def Query.first (q : Query) (α : Type) : Except SqlxError (Option α) :=
  match (q.limit 1).get α with
  | Except.ok results => Except.ok results.head?
  | Except.error e => Except.error e

/-- `Query::find_by_id` (query.rs lines 260-264): adds an equality
condition on the primary key (through the stringified id) and defers to
`first`. -/
def Query.find_by_id (q : Query) (α : Type) (T : ModelStatic) (id : Int) :
    Except SqlxError (Option α) :=
  (q.where_clause T.primary_key (toString id)).first α

/-- `Query::count` (query.rs lines 266-269): the execution stub returns
`Ok(0)`. -/
def Query.count (q : Query) : Except SqlxError Int :=
  Except.ok 0

/-- `Query::exists` (query.rs lines 271-274): `count() > 0`. -/
def Query.exists (q : Query) : Except SqlxError Bool :=
  match q.count with
  | Except.ok c => Except.ok (decide (c > 0))
  | Except.error e => Except.error e

/-- `Pagination<T>` from query.rs lines 374-383.  The source fields
`from` and `to` are Lean keywords / reserved-looking names and are
rendered `from_` and `to_`. -/
structure Pagination (α : Type) where
  data : List α
  current_page : Int
  per_page : Int
  total : Int
  last_page : Int
  from_ : Int
  to_ : Int

/-- The integer ceiling of `total / per_page` for a positive divisor.
The source (query.rs line 289) computes
`(total as f64 / per_page as f64).ceil() as i64`, which for i64 values
inside f64's exactly-representable range is this integer ceiling. -/
def ceil_div (total per_page : Int) : Int :=
  -((-total) / per_page)

/-- The pagination-metadata computation of `Query::paginate` (query.rs
lines 277-292) as a function of the page, the per-page size, the value
`total` returned by `count()` and the fetched rows: `remaining` is the
clamped `total - offset`, `to` adds `min(per_page, remaining)` to the
offset, `last_page` is the ceiling division. -/
def paginate_meta (α : Type) (page per_page total : Int) (results : List α) :
    Pagination α :=
  let offset := (page - 1) * per_page
  let remaining := if total > offset then total - offset else 0
  let to_value := offset + min per_page remaining
  { data := results
    current_page := page
    per_page := per_page
    total := total
    last_page := ceil_div total per_page
    from_ := offset + 1
    to_ := to_value }

/-- `Query::paginate` (query.rs lines 276-293): fetches one page via
`skip((page-1)*per_page).take(per_page).get()`, independently runs
`count()`, and assembles the metadata from both results. -/
def Query.paginate (q : Query) (α : Type) (page per_page : Int) :
    Except SqlxError (Pagination α) :=
  let offset := (page - 1) * per_page
  match ((q.skip offset).take per_page).get α with
  | Except.error e => Except.error e
  | Except.ok results =>
      match q.count with
      | Except.error e => Except.error e
      | Except.ok total => Except.ok (paginate_meta α page per_page total results)

/-- Rust's `str::trim_end_matches(c)`: repeatedly removes the trailing
character `c`. -/
def trim_end_matches (s : String) (c : Char) : String :=
  ⟨(s.data.reverse.dropWhile (fun d => d = c)).reverse⟩

/-- Lexicographic comparison of character lists by codepoint, the order
Rust's `str` ordering induces (bytewise, which agrees with codepoint
order on the ASCII table names involved). -/
def chars_le : List Char → List Char → Bool
  | [], _ => true
  | _ :: _, [] => false
  | a :: as, b :: bs =>
      if a.toNat < b.toNat then true
      else if b.toNat < a.toNat then false
      else chars_le as bs

/-- The two-element `Vec::sort` of belongs_to_many.rs lines 35-36:
lexicographic order on the two table names. -/
def sort2 (a b : String) : List String :=
  if chars_le a.data b.data then [a, b] else [b, a]

/-- `HasOne<T, R>` (has_one.rs lines 10-15): the owning instance is
represented by its `get_key_value()` result, the only part of it the
embedded operations read. -/
structure HasOne where
  parent_key_value : Option Value
  foreign_key : String
  local_key : String

/-- `HasOne::new` (has_one.rs lines 22-34): the foreign key defaults to
the owning type's table name with trailing `'s'` trimmed plus `"_id"`,
the local key defaults to the owning type's `primary_key()`. -/
def HasOne.new (T : ModelStatic) (parent_key_value : Option Value)
    (foreign_key local_key : Option String) : HasOne where
  parent_key_value := parent_key_value
  foreign_key := foreign_key.getD (trim_end_matches T.table_name 's' ++ "_id")
  local_key := local_key.getD T.primary_key

/-- `HasOne::get_query` (has_one.rs lines 76-84): when the owner has a
key value convertible by `as_i64`/`as_str`, constrain
`foreign_key = <key>`; otherwise return the fresh unconstrained query. -/
def HasOne.get_query (r : HasOne) : Query :=
  match r.parent_key_value with
  | some val =>
      match val.key_string with
      | some id_str => Query.new.where_clause r.foreign_key id_str
      | none => Query.new
  | none => Query.new

/-- `HasMany<T, R>` (has_many.rs lines 10-15), represented like
`HasOne`. -/
structure HasMany where
  parent_key_value : Option Value
  foreign_key : String
  local_key : String

/-- `HasMany::new` (has_many.rs lines 22-34): identical defaulting to
`HasOne::new`. -/
def HasMany.new (T : ModelStatic) (parent_key_value : Option Value)
    (foreign_key local_key : Option String) : HasMany where
  parent_key_value := parent_key_value
  foreign_key := foreign_key.getD (trim_end_matches T.table_name 's' ++ "_id")
  local_key := local_key.getD T.primary_key

/-- `HasMany::get_query` (has_many.rs lines 86-91): the body is
`Query::new()` with the foreign-key constraint left as a comment, so the
returned query is always unconstrained, whatever the owner's key. -/
def HasMany.get_query (r : HasMany) : Query :=
  Query.new

/-- `BelongsTo<T, R>` (belongs_to.rs lines 10-15): the child instance is
carried only through its key value (never read by the embedded
operations, mirroring the stub). -/
structure BelongsTo where
  child_key_value : Option Value
  foreign_key : String
  owner_key : String

/-- `BelongsTo::new` (belongs_to.rs lines 22-34): defaults are derived
from the related (owner) type `R`. -/
def BelongsTo.new (R : ModelStatic) (child_key_value : Option Value)
    (foreign_key owner_key : Option String) : BelongsTo where
  child_key_value := child_key_value
  foreign_key := foreign_key.getD (trim_end_matches R.table_name 's' ++ "_id")
  owner_key := owner_key.getD R.primary_key

/-- `BelongsTo::get_query` (belongs_to.rs lines 79-83): a stub returning
the unconstrained `Query::new()` (the constraint is a comment). -/
def BelongsTo.get_query (r : BelongsTo) : Query :=
  Query.new

/-- `HasMorphOne<T, R>` (has_morph_one.rs lines 10-16). -/
structure HasMorphOne where
  parent_key_value : Option Value
  morph_type : String
  morph_id : String
  local_key : String

/-- `HasMorphOne::new` (has_morph_one.rs lines 23-41): the type/id
columns default to `"<name>_type"` / `"<name>_id"`, the local key to the
owning type's primary key. -/
def HasMorphOne.new (T : ModelStatic) (parent_key_value : Option Value)
    (name : String) (type_column id_column local_key : Option String) : HasMorphOne where
  parent_key_value := parent_key_value
  morph_type := type_column.getD (name ++ "_type")
  morph_id := id_column.getD (name ++ "_id")
  local_key := local_key.getD T.primary_key

/-- `HasMorphOne::get_morph_type` (has_morph_one.rs lines 44-47): the
owning type's table name. -/
def HasMorphOne.get_morph_type (T : ModelStatic) : String :=
  T.table_name

/-- `HasMorphOne::get_query` (has_morph_one.rs lines 89-102): with a
convertible owner key, constrain both `morph_type = <table name>` and
`morph_id = <key>`; with no owner key at all, constrain only the type
column; with a key value that is neither an integer nor a string,
neither constraint is added. -/
def HasMorphOne.get_query (r : HasMorphOne) (T : ModelStatic) : Query :=
  match r.parent_key_value with
  | some val =>
      match val.key_string with
      | some id_str =>
          (Query.new.where_clause r.morph_type (HasMorphOne.get_morph_type T)).where_clause
            r.morph_id id_str
      | none => Query.new
  | none => Query.new.where_clause r.morph_type (HasMorphOne.get_morph_type T)

/-- `HasMorphMany<T, R>` (has_morph_many.rs lines 10-16). -/
structure HasMorphMany where
  parent_key_value : Option Value
  morph_type : String
  morph_id : String
  local_key : String

/-- `HasMorphMany::new` (has_morph_many.rs lines 23-41): identical
defaulting to `HasMorphOne::new`. -/
def HasMorphMany.new (T : ModelStatic) (parent_key_value : Option Value)
    (name : String) (type_column id_column local_key : Option String) : HasMorphMany where
  parent_key_value := parent_key_value
  morph_type := type_column.getD (name ++ "_type")
  morph_id := id_column.getD (name ++ "_id")
  local_key := local_key.getD T.primary_key

/-- `HasMorphMany::get_query` (has_morph_many.rs lines 104-110): the body
is `Query::new()` with both polymorphic constraints left as comments, so
the returned query is always unconstrained. -/
def HasMorphMany.get_query (r : HasMorphMany) : Query :=
  Query.new

/-- `BelongsToMany<T, R>` (belongs_to_many.rs lines 10-19). -/
structure BelongsToMany where
  parent_key_value : Option Value
  table : String
  foreign_pivot_key : String
  related_pivot_key : String
  parent_key : String
  related_key : String
  pivot_columns : List String

/-- `BelongsToMany::new` (belongs_to_many.rs lines 26-61): the pivot
table defaults to the two table names sorted and joined with `"_"`, the
pivot keys to each table name with trailing `'s'` trimmed plus `"_id"`,
the parent/related keys to the respective primary keys. -/
def BelongsToMany.new (T R : ModelStatic) (parent_key_value : Option Value)
    (table foreign_pivot_key related_pivot_key parent_key related_key : Option String) :
    BelongsToMany where
  parent_key_value := parent_key_value
  table := table.getD (String.intercalate "_" (sort2 T.table_name R.table_name))
  foreign_pivot_key := foreign_pivot_key.getD (trim_end_matches T.table_name 's' ++ "_id")
  related_pivot_key := related_pivot_key.getD (trim_end_matches R.table_name 's' ++ "_id")
  parent_key := parent_key.getD T.primary_key
  related_key := related_key.getD R.primary_key
  pivot_columns := []

/-- `BelongsToMany::get_query` (belongs_to_many.rs lines 121-140): with a
convertible owner key, join the pivot table on
`pivot.related_pivot_key = related.related_key` and constrain
`pivot.foreign_pivot_key = <key>`; otherwise the query is left
unconstrained. -/
def BelongsToMany.get_query (r : BelongsToMany) (R : ModelStatic) : Query :=
  match r.parent_key_value with
  | some val =>
      match val.key_string with
      | some id_str =>
          (Query.new.join r.table (r.table ++ "." ++ r.related_pivot_key) "="
              (R.table_name ++ "." ++ r.related_key)).where_clause
            (r.table ++ "." ++ r.foreign_pivot_key) id_str
      | none => Query.new
  | none => Query.new

/-- `BelongsToMany::attach` (belongs_to_many.rs lines 149-155): the loop
body is empty, so no SQL is issued; modelled as a transformer on the
pivot table's attached-id state that returns `Ok(())` and leaves the
state untouched. -/
def BelongsToMany.attach (ids : List Int) (attached : List Int) :
    Except SqlxError Unit × List Int :=
  (Except.ok (), attached)

/-- `BelongsToMany::detach` (belongs_to_many.rs lines 157-163): the loop
body is empty; same no-op modelling as `attach`. -/
def BelongsToMany.detach (ids : List Int) (attached : List Int) :
    Except SqlxError Unit × List Int :=
  (Except.ok (), attached)

/-- `BelongsToMany::sync` (belongs_to_many.rs lines 165-171): the body is
`Ok(())` under a comment describing the intended set-difference
algorithm; no statement is executed and the attached set is unchanged. -/
def BelongsToMany.sync (ids : List Int) (attached : List Int) :
    Except SqlxError Unit × List Int :=
  (Except.ok (), attached)

/-- The SELECT/FROM head of the rendered SQL (query.rs line 300). -/
def select_fragment (q : Query) (T : ModelStatic) : String :=
  "SELECT " ++ String.intercalate ", " q.select_columns ++ " FROM " ++ T.table_name

/-- The join clauses of the rendered SQL, in insertion order (query.rs
lines 303-306). -/
def joins_fragment (q : Query) : String :=
  String.join (q.joins.map render_join)

/-- The WHERE clause of the rendered SQL, empty exactly when the
condition list is empty (query.rs lines 309-333). -/
def where_fragment (q : Query) : String :=
  if q.where_conditions.isEmpty then ""
  else " WHERE " ++ render_conditions q.where_conditions

/-- The GROUP BY clause (query.rs lines 336-338). -/
def group_fragment (q : Query) : String :=
  if q.group_by_list.isEmpty then ""
  else " GROUP BY " ++ String.intercalate ", " q.group_by_list

/-- The HAVING clause, empty exactly when the condition list is empty
(query.rs lines 341-349). -/
def having_fragment (q : Query) : String :=
  if q.having_conditions.isEmpty then ""
  else " HAVING " ++ render_having_conditions q.having_conditions

/-- The ORDER BY clause (query.rs lines 352-358). -/
def order_fragment (q : Query) : String :=
  if q.order_by_list.isEmpty then ""
  else " ORDER BY " ++ String.intercalate ", " (q.order_by_list.map render_order)

/-- The LIMIT clause (query.rs lines 361-363). -/
def limit_fragment (q : Query) : String :=
  match q.limit_value with
  | some l => " LIMIT " ++ toString l
  | none => ""

/-- The OFFSET clause (query.rs lines 365-367). -/
def offset_fragment (q : Query) : String :=
  match q.offset_value with
  | some o => " OFFSET " ++ toString o
  | none => ""

/-- One chainable builder call of query.rs (every clause-building method;
the terminal operations are not calls of this kind). -/
inductive BuilderCall where
  | select (columns : List String)
  | select_raw (sql : String)
  | where_clause (column value : String)
  | where_op (column operator : String) (value : Value)
  | where_in (column : String) (values : List Value)
  | where_not_in (column : String) (values : List Value)
  | where_null (column : String)
  | where_not_null (column : String)
  | or_where (column operator : String) (value : Value)
  | join (table first operator second : String)
  | left_join (table first operator second : String)
  | right_join (table first operator second : String)
  | order_by (column direction : String)
  | order_by_asc (column : String)
  | order_by_desc (column : String)
  | latest (column : Option String)
  | oldest (column : Option String)
  | limit (n : Int)
  | offset (n : Int)
  | skip (n : Int)
  | take (n : Int)
  | group_by (columns : List String)
  | having (column operator : String) (value : Value)
  | with_rel (relations : List String)

/-- Dispatch one builder call to the corresponding `Query` method. -/
def applyCall (q : Query) : BuilderCall → Query
  | .select columns => q.select columns
  | .select_raw sql => q.select_raw sql
  | .where_clause column value => q.where_clause column value
  | .where_op column operator value => q.where_op column operator value
  | .where_in column values => q.where_in column values
  | .where_not_in column values => q.where_not_in column values
  | .where_null column => q.where_null column
  | .where_not_null column => q.where_not_null column
  | .or_where column operator value => q.or_where column operator value
  | .join table first operator second => q.join table first operator second
  | .left_join table first operator second => q.left_join table first operator second
  | .right_join table first operator second => q.right_join table first operator second
  | .order_by column direction => q.order_by column direction
  | .order_by_asc column => q.order_by_asc column
  | .order_by_desc column => q.order_by_desc column
  | .latest column => q.latest column
  | .oldest column => q.oldest column
  | .limit n => q.limit n
  | .offset n => q.offset n
  | .skip n => q.skip n
  | .take n => q.take n
  | .group_by columns => q.group_by columns
  | .having column operator value => q.having column operator value
  | .with_rel relations => q.with_rel relations

/-- A whole chain of builder calls, applied left to right. -/
def applyCalls (q : Query) (calls : List BuilderCall) : Query :=
  calls.foldl applyCall q

/-- `to_sql` always renders as the concatenation of the eight clause
fragments, in the source's fixed order. -/
theorem to_sql_eq_fragments (q : Query) (T : ModelStatic) :
    q.to_sql T =
      select_fragment q T ++ joins_fragment q ++ where_fragment q ++
        group_fragment q ++ having_fragment q ++ order_fragment q ++
        limit_fragment q ++ offset_fragment q := by
  unfold Query.to_sql select_fragment joins_fragment where_fragment group_fragment
    having_fragment order_fragment limit_fragment offset_fragment
  by_cases hw : q.where_conditions.isEmpty <;>
    by_cases hg : q.group_by_list.isEmpty <;>
      by_cases hh : q.having_conditions.isEmpty <;>
        by_cases ho : q.order_by_list.isEmpty <;>
          cases q.limit_value <;>
            cases q.offset_value <;>
              simp [hw, hg, hh, ho, String.append_assoc, String.append_empty]

/-- C1: for every HasOne and HasMany relation, `get_query()` is claimed
to constrain `foreign_key = <owner's key>` whenever the owner has a
primary-key value.  HasOne does (last conjunct), but
`HasMany::get_query` is a stub returning `Query::new()` with the
constraint commented out: for an owner from table `users` with key 1 it
yields a query with no conditions at all, rendering `SELECT * FROM
posts`, against the source's own comment describing the intended
constraint. -/
theorem c1_hasMany_getQuery_ignores_owner_key :
    (HasMany.new ⟨"users", "id"⟩ (some (Value.num 1)) none none).foreign_key = "user_id"
  ∧ (HasMany.new ⟨"users", "id"⟩ (some (Value.num 1)) none none).get_query = Query.new
  ∧ (HasMany.new ⟨"users", "id"⟩ (some (Value.num 1)) none none).get_query.where_conditions = []
  ∧ (HasMany.new ⟨"users", "id"⟩ (some (Value.num 1)) none none).get_query.to_sql ⟨"posts", "id"⟩
      = "SELECT * FROM posts"
  ∧ (HasOne.new ⟨"users", "id"⟩ (some (Value.num 1)) none none).get_query.to_sql ⟨"posts", "id"⟩
      = "SELECT * FROM posts WHERE user_id = " ++ squote ++ "1" ++ squote
  ∧ (HasOne.new ⟨"users", "id"⟩ none none none).get_query.to_sql ⟨"posts", "id"⟩
      = "SELECT * FROM posts" :=
  ⟨rfl, rfl, rfl, rfl, rfl, rfl⟩

/-- C2: MorphOne/MorphMany `get_query()` is claimed to constrain on
`morph_type` and `morph_id` when the owner has a key and on `morph_type`
alone otherwise (never zero constraints).  `HasMorphOne` implements
exactly that (third and fourth conjuncts), but `HasMorphMany::get_query`
is a stub returning `Query::new()` with both constraints commented out:
for an owner from `users` with key 5 it applies zero constraints. -/
theorem c2_morphMany_getQuery_unconstrained :
    (HasMorphMany.new ⟨"users", "id"⟩ (some (Value.num 5)) "imageable" none none none).get_query
        = Query.new
  ∧ ((HasMorphMany.new ⟨"users", "id"⟩ (some (Value.num 5)) "imageable" none none
        none).get_query.to_sql ⟨"images", "id"⟩)
      = "SELECT * FROM images"
  ∧ (((HasMorphOne.new ⟨"users", "id"⟩ (some (Value.num 5)) "imageable" none none
        none).get_query ⟨"users", "id"⟩).to_sql ⟨"images", "id"⟩)
      = "SELECT * FROM images WHERE imageable_type = " ++ squote ++ "users" ++ squote ++
          " AND imageable_id = " ++ squote ++ "5" ++ squote
  ∧ (((HasMorphOne.new ⟨"users", "id"⟩ none "imageable" none none
        none).get_query ⟨"users", "id"⟩).to_sql ⟨"images", "id"⟩)
      = "SELECT * FROM images WHERE imageable_type = " ++ squote ++ "users" ++ squote :=
  ⟨rfl, rfl, rfl, rfl⟩

/-- C7: `where_null` / `where_not_null` are claimed to render with no
value operand after the operator.  The renderer at query.rs line 315
unconditionally appends the rendered value, and both methods store
`Value::Null`, which renders `NULL`: the emitted SQL carries a spurious
trailing `NULL` (`deleted_at IS NULL NULL`), which is not valid SQL. -/
theorem c7_where_null_renders_trailing_null :
    (Query.new.where_null "deleted_at").to_sql ⟨"users", "id"⟩
      = "SELECT * FROM users WHERE deleted_at IS NULL NULL"
  ∧ (Query.new.where_not_null "deleted_at").to_sql ⟨"users", "id"⟩
      = "SELECT * FROM users WHERE deleted_at IS NOT NULL NULL" :=
  ⟨rfl, rfl⟩

/-- C9: `sync(ids)` is claimed to attach the newly present ids and
detach the ones no longer present.  `BelongsToMany::sync` (and `attach`
and `detach`, whose loop bodies are empty) executes nothing and returns
`Ok(())`: syncing `[2,3]` against attached `{1,2}` leaves `{1,2}`
attached — 1 is still attached and 3 never becomes attached. -/
theorem c9_sync_is_noop :
    BelongsToMany.sync [2, 3] [1, 2] = (Except.ok (), [1, 2])
  ∧ (BelongsToMany.sync [2, 3] [1, 2]).2 ≠ [2, 3]
  ∧ (1 : Int) ∈ (BelongsToMany.sync [2, 3] [1, 2]).2
  ∧ (3 : Int) ∉ (BelongsToMany.sync [2, 3] [1, 2]).2
  ∧ BelongsToMany.attach [3] [1, 2] = (Except.ok (), [1, 2])
  ∧ BelongsToMany.detach [1] [1, 2] = (Except.ok (), [1, 2]) :=
  ⟨rfl, by decide, by decide, by decide, rfl, rfl⟩

/-- C10: every terminal operation of the query builder returns `Ok`
without consulting any connection: `get` yields the empty list, `count`
yields 0, `exists` false, `first` and `find_by_id` none, and `paginate`
a `Pagination` whose data is empty and whose total is 0. -/
theorem c10_terminal_ops_never_error (α : Type) (T : ModelStatic) (q : Query)
    (id page per_page : Int) :
    q.get α = Except.ok []
  ∧ q.count = Except.ok 0
  ∧ q.exists = Except.ok false
  ∧ q.first α = Except.ok none
  ∧ q.find_by_id α T id = Except.ok none
  ∧ q.paginate α page per_page = Except.ok (paginate_meta α page per_page 0 [])
  ∧ (paginate_meta α page per_page 0 []).data = []
  ∧ (paginate_meta α page per_page 0 []).total = 0 :=
  ⟨rfl, rfl, rfl, rfl, rfl, rfl, rfl, rfl⟩

/-- C3 (counterexample): the claim asserts that whenever
`offset >= total` the `to` field does not exceed `total`.  At page 3,
per_page 10, total 15 the offset is 20 ≥ 15, the clamped `remaining` is
0, and `to = offset + 0 = 20 > 15`: `to` equals the offset and exceeds
the total whenever the offset itself does. -/
theorem c3_to_field_exceeds_total :
    ((3 - 1) * 10 : Int) ≥ 15
  ∧ (paginate_meta Unit 3 10 15 []).to_ = 20
  ∧ ¬((paginate_meta Unit 3 10 15 []).to_ ≤ (paginate_meta Unit 3 10 15 []).total) := by
  decide

/-- The `to` field of the pagination metadata, written with the source's
clamped `remaining` term. -/
theorem paginate_meta_to (α : Type) (page per_page total : Int) (data : List α) :
    (paginate_meta α page per_page total data).to_
      = (page - 1) * per_page +
          min per_page
            (if total > (page - 1) * per_page then total - (page - 1) * per_page else 0) :=
  rfl

/-- C3 (amended): for page ≥ 1 and per_page ≥ 1, `paginate` produces
`current_page = page`, `per_page`, `last_page = ceil(total/per_page)`
(characterized by the two ceiling bounds), `from = (page-1)*per_page+1`
and `to = offset + min(per_page, max(total-offset, 0))`; when
`offset >= total` the min term is 0, so `to` equals the offset — it
never goes negative, but it exceeds `total` whenever the offset does.
In particular page 2, per_page 10 with total 25 yields last_page 3,
from 11, to 20, and with total 15 yields to 15.  (In the running stub
`count()` always returns 0, so `Query::paginate` always feeds total 0
into this computation — twelfth conjunct.) -/
theorem c3_paginate_amended (α : Type) (page per_page total : Int) (data : List α)
    (hpage : 1 ≤ page) (hper : 1 ≤ per_page) :
    (paginate_meta α page per_page total data).current_page = page
  ∧ (paginate_meta α page per_page total data).per_page = per_page
  ∧ (paginate_meta α page per_page total data).total = total
  ∧ (paginate_meta α page per_page total data).data = data
  ∧ (paginate_meta α page per_page total data).last_page = ceil_div total per_page
  ∧ total ≤ per_page * ceil_div total per_page
  ∧ per_page * (ceil_div total per_page - 1) < total
  ∧ (paginate_meta α page per_page total data).from_ = (page - 1) * per_page + 1
  ∧ (paginate_meta α page per_page total data).to_
      = (page - 1) * per_page + min per_page (max (total - (page - 1) * per_page) 0)
  ∧ (total ≤ (page - 1) * per_page →
      (paginate_meta α page per_page total data).to_ = (page - 1) * per_page)
  ∧ 0 ≤ (paginate_meta α page per_page total data).to_
  ∧ (∀ q : Query, q.paginate α page per_page = Except.ok (paginate_meta α page per_page 0 []))
  ∧ (paginate_meta α 2 10 25 ([] : List α)).last_page = 3
  ∧ (paginate_meta α 2 10 25 ([] : List α)).from_ = 11
  ∧ (paginate_meta α 2 10 25 ([] : List α)).to_ = 20
  ∧ (paginate_meta α 2 10 15 ([] : List α)).to_ = 15 := by
  have hoff : 0 ≤ (page - 1) * per_page := by
    have := mul_nonneg (a := page - 1) (b := per_page) (by omega) (by omega)
    omega
  have hper0 : (0 : Int) < per_page := by omega
  have hdm := Int.ediv_add_emod (-total) per_page
  have hr0 : 0 ≤ (-total) % per_page := Int.emod_nonneg (-total) (by omega)
  have hrlt : (-total) % per_page < per_page := Int.emod_lt_of_pos (-total) hper0
  refine ⟨rfl, rfl, rfl, rfl, rfl, ?_, ?_, rfl, ?_, ?_, ?_, fun q => rfl, rfl, rfl, rfl, rfl⟩
  · show total ≤ per_page * (-((-total) / per_page))
    have : per_page * (-((-total) / per_page)) = -(per_page * ((-total) / per_page)) := by ring
    omega
  · show per_page * (-((-total) / per_page) - 1) < total
    have : per_page * (-((-total) / per_page) - 1)
        = -(per_page * ((-total) / per_page)) - per_page := by ring
    omega
  · rw [paginate_meta_to]
    rcases le_or_lt total ((page - 1) * per_page) with h | h
    · rw [if_neg (by omega), max_eq_right (by omega)]
    · rw [if_pos (by omega), max_eq_left (by omega)]
  · intro h
    rw [paginate_meta_to, if_neg (by omega)]
    rw [min_eq_right (by omega)]
    omega
  · rw [paginate_meta_to]
    rcases le_or_lt per_page (if total > (page - 1) * per_page
        then total - (page - 1) * per_page else 0) with h | h
    · rw [min_eq_left h]; omega
    · rw [min_eq_right (by omega)]
      split <;> omega

/-- C3 (witness): the amended theorem at page 2, per_page 10,
total 25. -/
theorem c3_paginate_amended_witness :
    (paginate_meta Unit 2 10 25 ([] : List Unit)).last_page = 3
  ∧ (paginate_meta Unit 2 10 25 ([] : List Unit)).from_ = 11
  ∧ (paginate_meta Unit 2 10 25 ([] : List Unit)).to_ = 20
  ∧ (paginate_meta Unit 2 10 15 ([] : List Unit)).to_ = 15 := by
  have h := c3_paginate_amended Unit 2 10 25 ([] : List Unit) (by decide) (by decide)
  obtain ⟨-, -, -, -, -, -, -, -, -, -, -, -, h13, h14, h15, h16⟩ := h
  exact ⟨h13, h14, h15, h16⟩

/-- C4: for every sequence of chained clause-building calls, in any
order, `to_sql()` renders exactly the clauses present in the resulting
state, in the fixed order SELECT/FROM, joins in insertion order, WHERE,
GROUP BY, HAVING, ORDER BY, LIMIT, OFFSET — and a fragment whose
underlying clause list is empty (in particular WHERE and HAVING)
contributes nothing at all to the output. -/
theorem c4_to_sql_clause_order (T : ModelStatic) (calls : List BuilderCall) :
    (applyCalls Query.new calls).to_sql T
      = select_fragment (applyCalls Query.new calls) T
        ++ joins_fragment (applyCalls Query.new calls)
        ++ where_fragment (applyCalls Query.new calls)
        ++ group_fragment (applyCalls Query.new calls)
        ++ having_fragment (applyCalls Query.new calls)
        ++ order_fragment (applyCalls Query.new calls)
        ++ limit_fragment (applyCalls Query.new calls)
        ++ offset_fragment (applyCalls Query.new calls)
  ∧ ((applyCalls Query.new calls).where_conditions = [] →
      where_fragment (applyCalls Query.new calls) = "")
  ∧ ((applyCalls Query.new calls).having_conditions = [] →
      having_fragment (applyCalls Query.new calls) = "")
  ∧ ((applyCalls Query.new calls).joins = [] →
      joins_fragment (applyCalls Query.new calls) = "")
  ∧ ((applyCalls Query.new calls).group_by_list = [] →
      group_fragment (applyCalls Query.new calls) = "")
  ∧ ((applyCalls Query.new calls).order_by_list = [] →
      order_fragment (applyCalls Query.new calls) = "")
  ∧ ((applyCalls Query.new calls).limit_value = none →
      limit_fragment (applyCalls Query.new calls) = "")
  ∧ ((applyCalls Query.new calls).offset_value = none →
      offset_fragment (applyCalls Query.new calls) = "") := by
  refine ⟨to_sql_eq_fragments _ T, ?_, ?_, ?_, ?_, ?_, ?_, ?_⟩ <;> intro h <;>
    simp [where_fragment, having_fragment, joins_fragment, group_fragment,
      order_fragment, limit_fragment, offset_fragment, h, String.join]

/-- C4 (witness): a chain issuing its calls in a scrambled order (limit
before having before where before group before offset before join before
order) still renders through the fixed fragment layout; and the
emptiness hypotheses hold and are discharged for a chain with no WHERE
and no HAVING calls. -/
theorem c4_to_sql_clause_order_witness :
    (applyCalls Query.new
        [BuilderCall.limit 5, BuilderCall.having "cnt" ">" (Value.num 1),
         BuilderCall.where_clause "status" "active", BuilderCall.group_by ["dept"],
         BuilderCall.offset 2, BuilderCall.join "profiles" "users.id" "=" "profiles.user_id",
         BuilderCall.order_by "name" "asc"]).to_sql ⟨"users", "id"⟩
      = select_fragment (applyCalls Query.new
          [BuilderCall.limit 5, BuilderCall.having "cnt" ">" (Value.num 1),
           BuilderCall.where_clause "status" "active", BuilderCall.group_by ["dept"],
           BuilderCall.offset 2, BuilderCall.join "profiles" "users.id" "=" "profiles.user_id",
           BuilderCall.order_by "name" "asc"]) ⟨"users", "id"⟩
        ++ joins_fragment (applyCalls Query.new
          [BuilderCall.limit 5, BuilderCall.having "cnt" ">" (Value.num 1),
           BuilderCall.where_clause "status" "active", BuilderCall.group_by ["dept"],
           BuilderCall.offset 2, BuilderCall.join "profiles" "users.id" "=" "profiles.user_id",
           BuilderCall.order_by "name" "asc"])
        ++ where_fragment (applyCalls Query.new
          [BuilderCall.limit 5, BuilderCall.having "cnt" ">" (Value.num 1),
           BuilderCall.where_clause "status" "active", BuilderCall.group_by ["dept"],
           BuilderCall.offset 2, BuilderCall.join "profiles" "users.id" "=" "profiles.user_id",
           BuilderCall.order_by "name" "asc"])
        ++ group_fragment (applyCalls Query.new
          [BuilderCall.limit 5, BuilderCall.having "cnt" ">" (Value.num 1),
           BuilderCall.where_clause "status" "active", BuilderCall.group_by ["dept"],
           BuilderCall.offset 2, BuilderCall.join "profiles" "users.id" "=" "profiles.user_id",
           BuilderCall.order_by "name" "asc"])
        ++ having_fragment (applyCalls Query.new
          [BuilderCall.limit 5, BuilderCall.having "cnt" ">" (Value.num 1),
           BuilderCall.where_clause "status" "active", BuilderCall.group_by ["dept"],
           BuilderCall.offset 2, BuilderCall.join "profiles" "users.id" "=" "profiles.user_id",
           BuilderCall.order_by "name" "asc"])
        ++ order_fragment (applyCalls Query.new
          [BuilderCall.limit 5, BuilderCall.having "cnt" ">" (Value.num 1),
           BuilderCall.where_clause "status" "active", BuilderCall.group_by ["dept"],
           BuilderCall.offset 2, BuilderCall.join "profiles" "users.id" "=" "profiles.user_id",
           BuilderCall.order_by "name" "asc"])
        ++ limit_fragment (applyCalls Query.new
          [BuilderCall.limit 5, BuilderCall.having "cnt" ">" (Value.num 1),
           BuilderCall.where_clause "status" "active", BuilderCall.group_by ["dept"],
           BuilderCall.offset 2, BuilderCall.join "profiles" "users.id" "=" "profiles.user_id",
           BuilderCall.order_by "name" "asc"])
        ++ offset_fragment (applyCalls Query.new
          [BuilderCall.limit 5, BuilderCall.having "cnt" ">" (Value.num 1),
           BuilderCall.where_clause "status" "active", BuilderCall.group_by ["dept"],
           BuilderCall.offset 2, BuilderCall.join "profiles" "users.id" "=" "profiles.user_id",
           BuilderCall.order_by "name" "asc"])
  ∧ (applyCalls Query.new [BuilderCall.limit 5]).where_conditions = []
  ∧ where_fragment (applyCalls Query.new [BuilderCall.limit 5]) = ""
  ∧ (applyCalls Query.new [BuilderCall.limit 5]).having_conditions = []
  ∧ having_fragment (applyCalls Query.new [BuilderCall.limit 5]) = "" :=
  ⟨(c4_to_sql_clause_order ⟨"users", "id"⟩
      [BuilderCall.limit 5, BuilderCall.having "cnt" ">" (Value.num 1),
       BuilderCall.where_clause "status" "active", BuilderCall.group_by ["dept"],
       BuilderCall.offset 2, BuilderCall.join "profiles" "users.id" "=" "profiles.user_id",
       BuilderCall.order_by "name" "asc"]).1,
   rfl,
   (c4_to_sql_clause_order ⟨"users", "id"⟩ [BuilderCall.limit 5]).2.1 rfl,
   rfl,
   (c4_to_sql_clause_order ⟨"users", "id"⟩ [BuilderCall.limit 5]).2.2.1 rfl⟩

/-- C5: consecutive WHERE conditions are joined by the later condition's
own connective and the first condition's connective is never read:
`where_clause(c1, v1)` followed by `or_where(c2, op, v2)` renders the
two conditions joined by `OR`, and replacing the first condition's
stored connective by any string `b` leaves the rendering unchanged. -/
theorem c5_or_where_uses_second_connective (T : ModelStatic) (c1 v1 c2 op : String)
    (v2 : Value) (b : String) :
    ((Query.new.where_clause c1 v1).or_where c2 op v2).to_sql T
      = "SELECT * FROM " ++ T.table_name ++ " WHERE " ++ c1 ++ " = " ++ squote ++ v1 ++ squote
          ++ " OR " ++ c2 ++ " " ++ op ++ " " ++ render_value v2
  ∧ render_conditions
        [{ column := c1, operator := "=", value := Value.str v1, boolean := b },
         { column := c2, operator := op, value := v2, boolean := "OR" }]
      = render_conditions
        [{ column := c1, operator := "=", value := Value.str v1, boolean := "AND" },
         { column := c2, operator := op, value := v2, boolean := "OR" }] := by
  constructor
  · rw [to_sql_eq_fragments]
    simp [select_fragment, joins_fragment, where_fragment,
      group_fragment, having_fragment, order_fragment,
      limit_fragment, offset_fragment,
      Query.new, Query.where_clause, Query.or_where,
      render_conditions, render_condition, render_value,
      String.join, String.append_assoc, String.append_empty, String.empty_append]
    rfl
  · rfl

/-- C6 (counterexample): the claim says strings render single-quoted in
both WHERE and HAVING condition values, and that array elements render
by the same rules as scalars.  The HAVING renderer instead writes the
value through `serde_json`'s `Display`: a string value renders
double-quoted (`cnt > "x"`, not `cnt > 'x'`), and inside a WHERE array a
boolean element renders `NULL`, not as a bare literal. -/
theorem c6_having_render_counterexample :
    (Query.new.having "cnt" ">" (Value.str "x")).to_sql ⟨"orders", "id"⟩
      = "SELECT * FROM orders HAVING cnt > \"x\""
  ∧ (Query.new.having "cnt" ">" (Value.str "x")).to_sql ⟨"orders", "id"⟩
      ≠ "SELECT * FROM orders HAVING cnt > " ++ squote ++ "x" ++ squote
  ∧ (Query.new.where_in "flags" [Value.bool true]).to_sql ⟨"orders", "id"⟩
      = "SELECT * FROM orders WHERE flags IN (NULL)"
  ∧ (Query.new.where_in "flags" [Value.bool true]).to_sql ⟨"orders", "id"⟩
      ≠ "SELECT * FROM orders WHERE flags IN (true)" := by
  refine ⟨rfl, ?_, rfl, ?_⟩ <;> decide

/-- C6 (amended): WHERE condition values render with single-quoted
unescaped strings, bare numbers and booleans, `NULL` for null, and
parenthesized comma-joined arrays whose elements render strings
single-quoted and numbers bare but every other variant (booleans and
nulls included) as `NULL`; HAVING condition values render as compact
JSON (strings double-quoted and escaped, null lowercase);
`where_in("id", [1,2,3])` renders `id IN (1, 2, 3)` and `where_not_in`
renders `NOT IN`. -/
theorem c6_value_rendering_amended (T : ModelStatic) (col op s : String) (n : Int)
    (b : Bool) (l : List Value) (v : Value) :
    (Query.new.where_op col op v).to_sql T
      = "SELECT * FROM " ++ T.table_name ++ " WHERE " ++ col ++ " " ++ op ++ " "
          ++ render_value v
  ∧ render_value (Value.str s) = squote ++ s ++ squote
  ∧ render_value (Value.num n) = toString n
  ∧ render_value (Value.bool b) = toString b
  ∧ render_value Value.null = "NULL"
  ∧ render_value (Value.arr l)
      = "(" ++ String.intercalate ", " (l.map render_array_elem) ++ ")"
  ∧ render_array_elem (Value.str s) = squote ++ s ++ squote
  ∧ render_array_elem (Value.num n) = toString n
  ∧ render_array_elem (Value.bool b) = "NULL"
  ∧ render_array_elem Value.null = "NULL"
  ∧ (Query.new.having col op v).to_sql T
      = "SELECT * FROM " ++ T.table_name ++ " HAVING " ++ col ++ " " ++ op ++ " "
          ++ v.json_display
  ∧ Value.json_display (Value.str s) = "\"" ++ json_escape s ++ "\""
  ∧ Value.json_display Value.null = "null"
  ∧ (Query.new.where_in "id" [Value.num 1, Value.num 2, Value.num 3]).to_sql T
      = "SELECT * FROM " ++ T.table_name ++ " WHERE id IN (1, 2, 3)"
  ∧ (Query.new.where_not_in "id" [Value.num 1, Value.num 2, Value.num 3]).to_sql T
      = "SELECT * FROM " ++ T.table_name ++ " WHERE id NOT IN (1, 2, 3)" := by
  refine ⟨?_, rfl, rfl, rfl, rfl, rfl, rfl, rfl, rfl, rfl, ?_, rfl, rfl, ?_, ?_⟩ <;>
  · rw [to_sql_eq_fragments]
    simp [select_fragment, joins_fragment, where_fragment,
      group_fragment, having_fragment, order_fragment,
      limit_fragment, offset_fragment,
      Query.new, Query.where_op, Query.having, Query.where_in, Query.where_not_in,
      render_conditions, render_condition, render_value, render_array_elem,
      render_having_conditions, render_having_condition,
      String.join, String.append_assoc, String.append_empty, String.empty_append]
    rfl

/-- C8 (counterexample): the claim says the defaulted local/owner key
equals the related type's configured primary key.  `HasOne::new` (like
`HasMany::new`) defaults `local_key` from `T::primary_key()` — the
owning (parent) type — not from `R`: with an owner from `users`
(primary key `id`) and a related type `profiles` whose configured
primary key is `uuid`, the defaulted local key is `id`, not `uuid`. -/
theorem c8_local_key_counterexample :
    (HasOne.new ⟨"users", "id"⟩ (some (Value.num 1)) none none).local_key = "id"
  ∧ ModelStatic.primary_key ⟨"profiles", "uuid"⟩ = "uuid"
  ∧ (HasOne.new ⟨"users", "id"⟩ (some (Value.num 1)) none none).local_key
      ≠ ModelStatic.primary_key ⟨"profiles", "uuid"⟩ := by
  refine ⟨rfl, rfl, ?_⟩; decide

/-- C8 (amended): when no explicit key name is supplied, the foreign key
defaults to the owning type's table name with trailing `'s'` characters
stripped followed by `"_id"` (the owning type is the parent `T` for
HasOne/HasMany and the owner `R` for BelongsTo; BelongsToMany derives
each pivot key from the corresponding table name); the defaulted
local key of HasOne/HasMany (and BelongsToMany's `parent_key`, and the
morph relations' `local_key`) equals the PARENT type's configured
primary key, while BelongsTo's `owner_key` (and BelongsToMany's
`related_key`) equals the related type's; the defaulted pivot table
name is the two table names sorted lexicographically and joined with
`"_"`. -/
theorem c8_key_defaults_amended (T R : ModelStatic) (pkv : Option Value) (nm : String) :
    (HasOne.new T pkv none none).foreign_key = trim_end_matches T.table_name 's' ++ "_id"
  ∧ (HasOne.new T pkv none none).local_key = T.primary_key
  ∧ (HasMany.new T pkv none none).foreign_key = trim_end_matches T.table_name 's' ++ "_id"
  ∧ (HasMany.new T pkv none none).local_key = T.primary_key
  ∧ (BelongsTo.new R pkv none none).foreign_key = trim_end_matches R.table_name 's' ++ "_id"
  ∧ (BelongsTo.new R pkv none none).owner_key = R.primary_key
  ∧ (BelongsToMany.new T R pkv none none none none none).table
      = String.intercalate "_" (sort2 T.table_name R.table_name)
  ∧ (BelongsToMany.new T R pkv none none none none none).foreign_pivot_key
      = trim_end_matches T.table_name 's' ++ "_id"
  ∧ (BelongsToMany.new T R pkv none none none none none).related_pivot_key
      = trim_end_matches R.table_name 's' ++ "_id"
  ∧ (BelongsToMany.new T R pkv none none none none none).parent_key = T.primary_key
  ∧ (BelongsToMany.new T R pkv none none none none none).related_key = R.primary_key
  ∧ (HasMorphOne.new T pkv nm none none none).morph_type = nm ++ "_type"
  ∧ (HasMorphOne.new T pkv nm none none none).morph_id = nm ++ "_id"
  ∧ (HasMorphOne.new T pkv nm none none none).local_key = T.primary_key
  ∧ (HasMorphMany.new T pkv nm none none none).local_key = T.primary_key
  ∧ (HasOne.new T pkv (some "owner_id") (some "key") ).foreign_key = "owner_id"
  ∧ (HasOne.new T pkv (some "owner_id") (some "key") ).local_key = "key"
  ∧ (HasOne.new ⟨"users", "id"⟩ none none none).foreign_key = "user_id"
  ∧ (BelongsToMany.new ⟨"users", "id"⟩ ⟨"roles", "id"⟩ none none none none none none).table
      = "roles_users"
  ∧ (BelongsToMany.new ⟨"users", "id"⟩ ⟨"roles", "id"⟩ none none none none none
        none).foreign_pivot_key = "user_id"
  ∧ (BelongsToMany.new ⟨"users", "id"⟩ ⟨"roles", "id"⟩ none none none none none
        none).related_pivot_key = "role_id" :=
  ⟨rfl, rfl, rfl, rfl, rfl, rfl, rfl, rfl, rfl, rfl, rfl, rfl, rfl, rfl, rfl, rfl, rfl,
   rfl, by decide, rfl, rfl⟩

end RustEloquent
